import Mathlib

/-!
Verification of the satellity group-invitation core (package `models`,
`group_invitation.go`) against its specification.  The data model and the two
workflows `CreateGroupInvitation` and `JoinGroupByInvitation` are embedded
shallowly: the relational store is a record of lists of rows, a transaction is
explicit state passing, and the `database/sql` / `durable` plumbing becomes an
`Except`-valued body run under a commit-or-rollback combinator.
-/

namespace Satellity

/-- A user row; `email` embeds `User.Email.String` (the string content of the
nullable column, empty when null). -/
structure User where
  userID : String
  email : String
deriving DecidableEq, Repr

/-- A group row, together with the in-memory enrichment fields `user` (the
loaded owner) and `role` (the viewer's role) that the workflow sets before
returning the group. -/
structure Group where
  groupID : String
  userID : String
  usersCount : Nat
  user : Option User
  role : String
deriving DecidableEq, Repr

/-- The `GroupInvitation` struct from the source; `sentAt`/`createdAt` are abstract
timestamps. -/
structure GroupInvitation where
  invitationID : String
  groupID : String
  email : String
  code : String
  sentAt : Option Nat
  createdAt : Nat
deriving DecidableEq, Repr

/-- A participant row as persisted by `createParticipant`. -/
structure Participant where
  groupID : String
  userID : String
  role : String
  source : String
deriving DecidableEq, Repr

/-- The relational store: the tables touched by the two workflows. -/
structure Store where
  groups : List Group
  groupInvitations : List GroupInvitation
  participants : List Participant
  users : List User
deriving DecidableEq, Repr

/-- The recognized `session` error conditions plus the two wrappers
(`session.ServerError`, `session.TransactionError`). -/
inductive SessionErr where
  | tooManyGroupInvitations
  | forbidden
  | invalidGroupInvitationCode
  | serverError (cause : String)
  | transactionError (cause : String)
deriving DecidableEq, Repr

/-- An error escaping the transaction body: either a `session.Error` or a raw
store/driver error. -/
inductive TxErr where
  | session (e : SessionErr)
  | raw (cause : String)
deriving DecidableEq, Repr

deriving instance DecidableEq for Except

/-- The constant `MaxGroupInvitations = 7` from the source constant block. -/
def MaxGroupInvitations : Nat := 7

/-- Modelled from the spec: the role constant `ParticipantRoleVIP` ("VIP") lives
in the excluded membership subsystem. -/
def ParticipantRoleVIP : String := "VIP"

/-- Modelled from the spec: the source tag `ParticipantSourceInvitation`
("invitation") lives in the excluded membership subsystem. -/
def ParticipantSourceInvitation : String := "invitation"

/-- Embeds `SELECT count(*) FROM group_invitations WHERE group_id=$1`. -/
def countInvitations (s : Store) (groupID : String) : Nat :=
  (s.groupInvitations.filter (fun i => i.groupID == groupID)).length

/-- Embeds `SELECT count(*) FROM participants WHERE group_id=$1`. -/
def countParticipants (s : Store) (groupID : String) : Nat :=
  (s.participants.filter (fun p => p.groupID == groupID)).length

/-- Modelled from the spec: `findGroupByID(groupID) -> Group | absent` — the
source `findGroup` lives in the excluded membership subsystem. -/
def findGroup (s : Store) (groupID : String) : Option Group :=
  s.groups.find? (fun g => g.groupID == groupID)

/-- Modelled from the spec: `findUserByID(userID) -> User | absent` — the
source helper lives in the excluded membership subsystem. -/
def findUserByID (s : Store) (userID : String) : Option User :=
  s.users.find? (fun u => u.userID == userID)

/-- Embeds `findGroupInvitationByGroupIDAndEmail`: first row with
`group_id=$1 AND email=$2` (`LIMIT 1`). -/
def findGroupInvitationByGroupIDAndEmail (s : Store) (groupID email : String) :
    Option GroupInvitation :=
  s.groupInvitations.find? (fun i => i.groupID == groupID && i.email == email)

/-- Modelled from the spec: `createParticipant(group, userID, source)` must
persist the role (carried on the group) and the source tag, participating in
the caller's transaction.  `fault` injects a store failure, the simulated
fault of property P3. -/
def createParticipant (fault : Bool) (s : Store) (group : Group)
    (userID source : String) : Except TxErr (Store × Participant) :=
  if fault then .error (.raw "participant insert failed")
  else
    let p : Participant :=
      { groupID := group.groupID, userID := userID, role := group.role,
        source := source }
    .ok ({ s with participants := s.participants ++ [p] }, p)

/-- Modelled from the spec: `durable.RunInTransaction` runs the body against
the store and commits its writes only when the body returns no error; on error
every write of the body is rolled back, leaving the store as it was. -/
def RunInTransaction {α : Type} (s : Store)
    (body : Store → Except TxErr (Store × α)) : Store × Except TxErr α :=
  match body s with
  | .ok (s2, a) => (s2, .ok a)
  | .error e => (s, .error e)

/-- The error post-processing shared by both workflows: a `session.Error`
passes through unchanged, anything else is wrapped by
`session.TransactionError`. -/
def wrapTxErr : TxErr → SessionErr
  | .session e => e
  | .raw cause => .transactionError cause

/-- Embeds `binary.LittleEndian.Uint64` over the 8-byte buffer filled by
`rand.Read`. -/
def uint64LE (bs : List Nat) : Nat :=
  (bs.take 8).foldr (fun b acc => b % 256 + 256 * acc) 0

/-- Embeds `generateVerificationCode`: the outcome of `rand.Read` is passed in as
`randRead` (8 bytes on success, the driver error otherwise); `fmt.Sprint` of
the resulting integer is `Nat.repr`. -/
def generateVerificationCode (randRead : Except String (List Nat)) :
    Except SessionErr String :=
  match randRead with
  | .error cause => .error (.serverError cause)
  | .ok b =>
    let c := uint64LE b % 10000
    let c := if c < 1000 then 1000 + c else c
    .ok (Nat.repr c)

/-- The transaction body of `CreateGroupInvitation` (the closure passed to
`RunInTransaction`): capacity check, group lookup, ownership check, code
generation, insert.  The unique index `group_invitations_group_emailx`
declared in the DDL makes a duplicate `(group_id, email)` insert fail with a
raw constraint error. -/
def createTxBody (user : User) (groupID email freshID : String) (now : Nat)
    (randRead : Except String (List Nat)) (tx : Store) :
    Except TxErr (Store × Option GroupInvitation) :=
  let count := countInvitations tx groupID
  if count > 7 then
    .error (.session .tooManyGroupInvitations)
  else
    match findGroup tx groupID with
    | none => .ok (tx, none)
    | some group =>
      if user.userID ≠ group.userID then
        .error (.session .forbidden)
      else
        match generateVerificationCode randRead with
        | .error e => .error (.session e)
        | .ok code =>
          let invitation : GroupInvitation :=
            { invitationID := freshID, groupID := group.groupID,
              email := email, code := code, sentAt := none, createdAt := now }
          if tx.groupInvitations.any
              (fun i => i.groupID == group.groupID && i.email == email) then
            .error (.raw "unique index group_invitations_group_emailx")
          else
            .ok ({ tx with groupInvitations :=
                    tx.groupInvitations ++ [invitation] }, some invitation)

/-- Embeds `(user *User).CreateGroupInvitation(mctx, groupID, email)`: run the body in
one transaction and post-process the error.  `freshID` stands for the fresh
UUID, `now` for `time.Now()`, `randRead` for the random source. -/
def CreateGroupInvitation (user : User) (s : Store) (groupID email : String)
    (freshID : String) (now : Nat) (randRead : Except String (List Nat)) :
    Store × Except SessionErr (Option GroupInvitation) :=
  let p := RunInTransaction s (createTxBody user groupID email freshID now randRead)
  (p.1, p.2.mapError wrapTxErr)

/-- Go `unicode.IsSpace`, as used by `strings.TrimSpace`. -/
def goIsSpace (c : Char) : Bool :=
  let n := c.toNat
  n == 9 || n == 10 || n == 11 || n == 12 || n == 13 || n == 32 ||
  n == 0x85 || n == 0xA0 || n == 0x1680 || (0x2000 ≤ n && n ≤ 0x200A) ||
  n == 0x2028 || n == 0x2029 || n == 0x202F || n == 0x205F || n == 0x3000

/-- Embeds `strings.TrimSpace`: drop leading and trailing white space. -/
def trimSpace (s : String) : String :=
  ⟨((s.data.dropWhile goIsSpace).reverse.dropWhile goIsSpace).reverse⟩

/-- The transaction body of `JoinGroupByInvitation`.  The `Option Group` it
returns models the closure-captured `group` variable as it stands when the
body returns without error: in particular on the missing-invitation path the
variable already holds the group loaded in step 1. -/
def joinTxBody (user : User) (groupID code : String) (fault : Bool)
    (tx : Store) : Except TxErr (Store × Option Group) :=
  match findGroup tx groupID with
  | none => .ok (tx, none)
  | some group =>
    match findGroupInvitationByGroupIDAndEmail tx group.groupID user.email with
    | none => .ok (tx, some group)
    | some invitation =>
      if invitation.code ≠ trimSpace code then
        .error (.session .invalidGroupInvitationCode)
      else
        let owner := findUserByID tx group.userID
        let group1 := { group with user := owner }
        let count := countParticipants tx groupID
        let group2 := { group1 with usersCount := count + 1 }
        let tx1 := { tx with groups := tx.groups.map (fun g =>
          if g.groupID == group2.groupID then
            { g with usersCount := group2.usersCount } else g) }
        let group3 := { group2 with role := ParticipantRoleVIP }
        match createParticipant fault tx1 group3 user.userID
            ParticipantSourceInvitation with
        | .error e => .error e
        | .ok (tx2, _) =>
          let tx3 := { tx2 with groupInvitations :=
            (tx2.groupInvitations.filter
              (fun i => !(i.invitationID == invitation.invitationID))) }
          .ok (tx3, some group3)

/-- Embeds `(user *User).JoinGroupByInvitation(mctx, groupID, code)`: run the body in
one transaction and post-process the error.  `fault` is threaded to
`createParticipant` for fault injection. -/
def JoinGroupByInvitation (user : User) (s : Store) (groupID code : String)
    (fault : Bool) : Store × Except SessionErr (Option Group) :=
  let p := RunInTransaction s (joinTxBody user groupID code fault)
  (p.1, p.2.mapError wrapTxErr)

/-! ### Concrete fixtures for witnesses and counterexamples -/

/-- Owner of the example group. -/
def exOwner : User := ⟨"u1", "owner@x"⟩

/-- Invited user; the email matches the outstanding invitation. -/
def exJoiner : User := ⟨"u2", "a@example.com"⟩

/-- The example group, owned by `exOwner`, with one participant (the owner). -/
def exGroup : Group := ⟨"g1", "u1", 1, none, ""⟩

/-- An outstanding invitation for `(g1, a@example.com)` with code 1234. -/
def exInvitation : GroupInvitation := ⟨"i1", "g1", "a@example.com", "1234", none, 5⟩

/-- Example store: one group, one invitation, one participant, two users. -/
def exStore : Store :=
  ⟨[exGroup], [exInvitation], [⟨"g1", "u1", "owner", "created"⟩], [exOwner, exJoiner]⟩

/-- The store after `exJoiner` successfully redeems the invitation. -/
def exStoreAfter : Store := (JoinGroupByInvitation exJoiner exStore "g1" "1234" false).1

/-- The enriched group returned by the successful example redemption. -/
def exGroupJoined : Group := ⟨"g1", "u1", 2, some exOwner, "VIP"⟩

/-- The `k`-th of seven invitation rows used to fill a group to the cap. -/
def capInv (k : Nat) : GroupInvitation :=
  ⟨"i" ++ Nat.repr k, "g1", "e" ++ Nat.repr k ++ "@x", "1234", none, 0⟩

/-- A store whose group `g1` already holds exactly `MaxGroupInvitations = 7`
invitation rows. -/
def storeAtCap : Store :=
  ⟨[⟨"g1", "u1", 1, none, ""⟩], (List.range 7).map capInv, [], [⟨"u1", "owner@x"⟩]⟩

/-- A store with eight invitation rows for a group id that has no group row. -/
def storeOverCap : Store :=
  ⟨[], (List.range 8).map capInv, [], [⟨"u1", "owner@x"⟩]⟩

/-! ### Helper lemmas -/

lemma findGroup_groupID {s : Store} {groupID : String} {g : Group}
    (hg : findGroup s groupID = some g) : g.groupID = groupID := by
  unfold findGroup at hg
  have := List.find?_some hg
  exact eq_of_beq this

lemma digitChar_isDigit (m : Nat) (h : m < 10) : (Nat.digitChar m).isDigit = true := by
  interval_cases m <;> decide

lemma toDigitsCore_isDigit (f : Nat) : ∀ (n : Nat) (ds : List Char),
    (∀ c ∈ ds, c.isDigit = true) →
    ∀ c ∈ Nat.toDigitsCore 10 f n ds, c.isDigit = true := by
  induction f with
  | zero => intro n ds h c hc; exact h c hc
  | succ f ih =>
    intro n ds h c hc
    have hcons : ∀ c ∈ (Nat.digitChar (n % 10) :: ds), c.isDigit = true := by
      intro c hc
      rcases List.mem_cons.mp hc with hce | hmem
      · subst hce; exact digitChar_isDigit _ (Nat.mod_lt _ (by norm_num))
      · exact h c hmem
    simp only [Nat.toDigitsCore] at hc
    by_cases hz : n / 10 = 0
    · rw [if_pos hz] at hc
      exact hcons c hc
    · rw [if_neg hz] at hc
      exact ih (n / 10) (Nat.digitChar (n % 10) :: ds) hcons c hc

lemma repr_isDigit (n : Nat) : ∀ c ∈ (Nat.repr n).data, c.isDigit = true := by
  intro c hc
  have hd : (Nat.repr n).data = Nat.toDigitsCore 10 (n + 1) n [] := rfl
  rw [hd] at hc
  exact toDigitsCore_isDigit (n + 1) n [] (by intro c hc; cases hc) c hc

lemma joinTxBody_success (user : User) (s : Store) (groupID code : String)
    (g : Group) (inv : GroupInvitation)
    (hg : findGroup s groupID = some g)
    (hi : findGroupInvitationByGroupIDAndEmail s g.groupID user.email = some inv)
    (hcode : inv.code = trimSpace code) :
    joinTxBody user groupID code false s =
      .ok ({ s with
              groups := s.groups.map (fun gr =>
                if gr.groupID == g.groupID then
                  { gr with usersCount := countParticipants s groupID + 1 }
                else gr),
              groupInvitations := s.groupInvitations.filter
                (fun i => !(i.invitationID == inv.invitationID)),
              participants := s.participants ++
                [{ groupID := g.groupID, userID := user.userID,
                   role := ParticipantRoleVIP,
                   source := ParticipantSourceInvitation }] },
            some { g with user := findUserByID s g.userID,
                          usersCount := countParticipants s groupID + 1,
                          role := ParticipantRoleVIP }) := by
  simp [joinTxBody, hg, hi, hcode, createParticipant]

lemma joinTxBody_fault (user : User) (s : Store) (groupID code : String)
    (g : Group) (inv : GroupInvitation)
    (hg : findGroup s groupID = some g)
    (hi : findGroupInvitationByGroupIDAndEmail s g.groupID user.email = some inv)
    (hcode : inv.code = trimSpace code) :
    joinTxBody user groupID code true s =
      .error (.raw "participant insert failed") := by
  simp [joinTxBody, hg, hi, hcode, createParticipant]

lemma joinTxBody_mismatch (user : User) (s : Store) (groupID code : String)
    (fault : Bool) (g : Group) (inv : GroupInvitation)
    (hg : findGroup s groupID = some g)
    (hi : findGroupInvitationByGroupIDAndEmail s g.groupID user.email = some inv)
    (hcode : inv.code ≠ trimSpace code) :
    joinTxBody user groupID code fault s =
      .error (.session .invalidGroupInvitationCode) := by
  simp [joinTxBody, hg, hi, hcode]

lemma join_success_eq (user : User) (s : Store) (groupID code : String)
    (fault : Bool) (g : Group) (inv : GroupInvitation) (r : Option Group)
    (hg : findGroup s groupID = some g)
    (hi : findGroupInvitationByGroupIDAndEmail s g.groupID user.email = some inv)
    (h : (JoinGroupByInvitation user s groupID code fault).2 = .ok r) :
    JoinGroupByInvitation user s groupID code fault =
      ({ s with
          groups := s.groups.map (fun gr =>
            if gr.groupID == g.groupID then
              { gr with usersCount := countParticipants s groupID + 1 }
            else gr),
          groupInvitations := s.groupInvitations.filter
            (fun i => !(i.invitationID == inv.invitationID)),
          participants := s.participants ++
            [{ groupID := g.groupID, userID := user.userID,
               role := ParticipantRoleVIP,
               source := ParticipantSourceInvitation }] },
        .ok (some { g with user := findUserByID s g.userID,
                           usersCount := countParticipants s groupID + 1,
                           role := ParticipantRoleVIP })) := by
  by_cases hcode : inv.code = trimSpace code
  · cases fault
    · simp [JoinGroupByInvitation, RunInTransaction,
        joinTxBody_success user s groupID code g inv hg hi hcode,
        Except.mapError]
    · exfalso
      simp [JoinGroupByInvitation, RunInTransaction,
        joinTxBody_fault user s groupID code g inv hg hi hcode,
        Except.mapError] at h
  · exfalso
    simp [JoinGroupByInvitation, RunInTransaction,
      joinTxBody_mismatch user s groupID code fault g inv hg hi hcode,
      Except.mapError] at h

/-! ### Claim theorems -/

/-- C5: every output of `generateVerificationCode` is the decimal string of a
number in [1000, 9999], obtained by interpreting the 8 random bytes as an
unsigned 64-bit little-endian integer, reducing modulo 10000 and lifting
results below 1000 by adding 1000; every character of the string is a digit;
and when the random source errors the generator fails with a `ServerError`
carrying the cause. -/
theorem generateVerificationCode_spec :
    (∀ cause, generateVerificationCode (.error cause) =
      .error (.serverError cause)) ∧
    (∀ bs : List Nat, ∃ n : Nat,
      generateVerificationCode (.ok bs) = .ok (Nat.repr n) ∧
      1000 ≤ n ∧ n ≤ 9999 ∧
      n = (if uint64LE bs % 10000 < 1000 then 1000 + uint64LE bs % 10000
           else uint64LE bs % 10000) ∧
      ∀ c ∈ (Nat.repr n).data, c.isDigit = true) := by
  constructor
  · intro cause; rfl
  · intro bs
    have hmod : uint64LE bs % 10000 < 10000 := Nat.mod_lt _ (by norm_num)
    refine ⟨if uint64LE bs % 10000 < 1000 then 1000 + uint64LE bs % 10000
            else uint64LE bs % 10000, ?_, ?_, ?_, rfl, repr_isDigit _⟩
    · simp only [generateVerificationCode]
    · split <;> omega
    · split <;> omega

/-- Witness-style corollary for C5: a failing random source yields a
`ServerError` carrying the underlying cause. -/
theorem generateVerificationCode_spec_witness :
    generateVerificationCode (.error "entropy") =
      .error (.serverError "entropy") :=
  generateVerificationCode_spec.1 "entropy"

/-- C10: the capacity check runs first: whenever the invitation count for
`groupID` exceeds 7, `CreateGroupInvitation` fails with
`TooManyGroupInvitations` regardless of whether the group exists or the
acting user owns it, and the store is unchanged. -/
theorem createGroupInvitation_capacity_first (user : User) (s : Store)
    (groupID email freshID : String) (now : Nat)
    (randRead : Except String (List Nat))
    (h : 7 < countInvitations s groupID) :
    CreateGroupInvitation user s groupID email freshID now randRead =
      (s, .error .tooManyGroupInvitations) := by
  simp [CreateGroupInvitation, RunInTransaction, createTxBody, h,
    Except.mapError, wrapTxErr]

/-- Witness for C10: a store with 8 invitation rows for `g1` and no group row
at all is rejected with `TooManyGroupInvitations`, before the group lookup
and even with a failing random source. -/
theorem createGroupInvitation_capacity_first_witness :
    CreateGroupInvitation exOwner storeOverCap "g1" "x@x" "i9" 0
        (.error "entropy") =
      (storeOverCap, .error .tooManyGroupInvitations) :=
  createGroupInvitation_capacity_first exOwner storeOverCap "g1" "x@x" "i9" 0
    (.error "entropy") (by decide)

/-- C7: when the group exists, the capacity check passes, and the acting user
is not the group's owner, `CreateGroupInvitation` fails with `Forbidden` and
the store is unchanged (no invitation row inserted). -/
theorem createGroupInvitation_forbidden (user : User) (s : Store)
    (groupID email freshID : String) (now : Nat)
    (randRead : Except String (List Nat)) (g : Group)
    (hcap : countInvitations s groupID ≤ 7)
    (hg : findGroup s groupID = some g)
    (hne : user.userID ≠ g.userID) :
    CreateGroupInvitation user s groupID email freshID now randRead =
      (s, .error .forbidden) := by
  simp [CreateGroupInvitation, RunInTransaction, createTxBody, hg, hne,
    Nat.not_lt.mpr hcap, Except.mapError, wrapTxErr]

/-- Witness for C7: the invited user, who is not the owner, attempts issuance
on the example store and gets `Forbidden` with the store unchanged. -/
theorem createGroupInvitation_forbidden_witness :
    CreateGroupInvitation exJoiner exStore "g1" "b@x" "i2" 9
        (.ok [210, 4, 0, 0, 0, 0, 0, 0]) =
      (exStore, .error .forbidden) :=
  createGroupInvitation_forbidden exJoiner exStore "g1" "b@x" "i2" 9
    (.ok [210, 4, 0, 0, 0, 0, 0, 0]) exGroup (by decide) (by decide) (by decide)

/-- C8: a missing group is a silent no-op in both workflows: issuance (when
the capacity check passes) returns no invitation and no error, redemption
returns no group and no error, and neither writes to the store. -/
theorem missingGroup_noop (user : User) (s : Store)
    (groupID email freshID code : String) (now : Nat)
    (randRead : Except String (List Nat)) (fault : Bool)
    (hg : findGroup s groupID = none) :
    (countInvitations s groupID ≤ 7 →
      CreateGroupInvitation user s groupID email freshID now randRead =
        (s, .ok none)) ∧
    JoinGroupByInvitation user s groupID code fault = (s, .ok none) := by
  constructor
  · intro hcap
    simp [CreateGroupInvitation, RunInTransaction, createTxBody, hg,
      Nat.not_lt.mpr hcap, Except.mapError]
  · simp [JoinGroupByInvitation, RunInTransaction, joinTxBody, hg,
      Except.mapError]

/-- Witness for C8: on the example store, group id `gX` has no group row;
both operations return successfully with no payload and leave the store
unchanged. -/
theorem missingGroup_noop_witness :
    CreateGroupInvitation exOwner exStore "gX" "b@x" "i9" 0 (.ok []) =
      (exStore, .ok none) ∧
    JoinGroupByInvitation exOwner exStore "gX" "1234" false =
      (exStore, .ok none) :=
  ⟨(missingGroup_noop exOwner exStore "gX" "b@x" "i9" "1234" 0 (.ok []) false
      (by decide)).1 (by decide),
   (missingGroup_noop exOwner exStore "gX" "b@x" "i9" "1234" 0 (.ok []) false
      (by decide)).2⟩

/-- Counterexample to C2: on the example store with the invitation removed,
the group exists and no invitation row matches `(g1, a@example.com)`, yet
`JoinGroupByInvitation` returns the group loaded in step 1 (the captured
`group` variable is already set when the body returns nil), not "no group". -/
theorem join_missingInvitation_counterexample :
    (JoinGroupByInvitation exJoiner
        { exStore with groupInvitations := [] } "g1" "1234" false).2 =
      .ok (some exGroup) ∧
    (JoinGroupByInvitation exJoiner
        { exStore with groupInvitations := [] } "g1" "1234" false).2 ≠
      .ok none := by
  refine ⟨by decide, by decide⟩

/-- C2 (amended): when the group exists but no invitation row exists for
`(groupID, acting user's email)`, `JoinGroupByInvitation` returns no error and
the group as loaded in step 1 (unenriched, with no writes); in particular a
second redemption attempt after the invitation was consumed returns no error
and that group. -/
theorem join_missingInvitation_returns_group (user : User) (s : Store)
    (groupID code : String) (fault : Bool) (g : Group)
    (hg : findGroup s groupID = some g)
    (hi : findGroupInvitationByGroupIDAndEmail s g.groupID user.email = none) :
    JoinGroupByInvitation user s groupID code fault = (s, .ok (some g)) := by
  simp [JoinGroupByInvitation, RunInTransaction, joinTxBody, hg, hi,
    Except.mapError]

/-- Witness for C2 (amended): after `exJoiner` successfully redeems the
invitation, a second redemption with the same code finds no invitation and
returns, without error and without writing, the group (now with
`usersCount = 2`). -/
theorem join_missingInvitation_returns_group_witness :
    JoinGroupByInvitation exJoiner exStoreAfter "g1" "1234" false =
      (exStoreAfter, .ok (some ⟨"g1", "u1", 2, none, ""⟩)) :=
  join_missingInvitation_returns_group exJoiner exStoreAfter "g1" "1234"
    false ⟨"g1", "u1", 2, none, ""⟩ (by decide) (by decide)

/-- C3: `JoinGroupByInvitation` is atomic: whenever it returns an error —
in particular when participant creation fails — the observable store is
exactly the store before the call; none of the usersCount update, participant
insert, or invitation delete is applied. -/
theorem join_atomic (user : User) (s : Store) (groupID code : String)
    (fault : Bool) (e : SessionErr)
    (h : (JoinGroupByInvitation user s groupID code fault).2 = .error e) :
    (JoinGroupByInvitation user s groupID code fault).1 = s := by
  simp only [JoinGroupByInvitation, RunInTransaction] at h ⊢
  cases hb : joinTxBody user groupID code fault s with
  | ok p => rw [hb] at h; simp [Except.mapError] at h
  | error e2 => rfl

/-- Witness for C3: with a fault injected at the participant-creation step,
redemption on the example store fails, and the store afterwards is exactly
`exStore`: the invitation row still exists and `usersCount` is untouched. -/
theorem join_atomic_witness :
    (JoinGroupByInvitation exJoiner exStore "g1" "1234" true).1 = exStore :=
  join_atomic exJoiner exStore "g1" "1234" true
    (.transactionError "participant insert failed") (by decide)

/-- C6: when the group and a matching invitation exist, redemption fails with
`InvalidGroupInvitationCode` if and only if the supplied code, trimmed of
surrounding whitespace, differs from the stored code. -/
theorem join_code_mismatch_iff (user : User) (s : Store)
    (groupID code : String) (fault : Bool) (g : Group) (inv : GroupInvitation)
    (hg : findGroup s groupID = some g)
    (hi : findGroupInvitationByGroupIDAndEmail s g.groupID user.email = some inv) :
    ((JoinGroupByInvitation user s groupID code fault).2 =
        .error .invalidGroupInvitationCode ↔ inv.code ≠ trimSpace code) := by
  by_cases hcode : inv.code = trimSpace code
  · simp only [hcode, ne_eq, not_true_eq_false, iff_false]
    cases fault
    · simp [JoinGroupByInvitation, RunInTransaction,
        joinTxBody_success user s groupID code g inv hg hi hcode,
        Except.mapError]
    · simp [JoinGroupByInvitation, RunInTransaction,
        joinTxBody_fault user s groupID code g inv hg hi hcode,
        Except.mapError, wrapTxErr]
  · simp only [hcode, ne_eq, not_false_eq_true, iff_true]
    simp [JoinGroupByInvitation, RunInTransaction,
      joinTxBody_mismatch user s groupID code fault g inv hg hi hcode,
      Except.mapError, wrapTxErr]

/-- Witness for C6: supplying `" 12x3 "` (trimmed to `"12x3"`) against the
stored code `"1234"` yields `InvalidGroupInvitationCode`. -/
theorem join_code_mismatch_iff_witness :
    (JoinGroupByInvitation exJoiner exStore "g1" " 12x3 " false).2 =
      .error .invalidGroupInvitationCode :=
  (join_code_mismatch_iff exJoiner exStore "g1" " 12x3 " false exGroup
    exInvitation (by decide) (by decide)).mpr (by decide)

/-- C4: on every successful redemption the new `usersCount` is the participant
count read inside the transaction plus one, exactly one participant row is
added, and at commit every stored group row for `groupID` carries a
`usersCount` equal to the true count of participant rows. -/
theorem join_usersCount_consistent (user : User) (s : Store)
    (groupID code : String) (fault : Bool) (g : Group) (inv : GroupInvitation)
    (r : Option Group)
    (hg : findGroup s groupID = some g)
    (hi : findGroupInvitationByGroupIDAndEmail s g.groupID user.email = some inv)
    (h : (JoinGroupByInvitation user s groupID code fault).2 = .ok r) :
    countParticipants (JoinGroupByInvitation user s groupID code fault).1
        groupID = countParticipants s groupID + 1 ∧
    (∃ g2, r = some g2 ∧ g2.usersCount = countParticipants s groupID + 1) ∧
    ∀ gr ∈ (JoinGroupByInvitation user s groupID code fault).1.groups,
      gr.groupID = groupID →
        gr.usersCount =
          countParticipants (JoinGroupByInvitation user s groupID code fault).1
            groupID := by
  have hgid : g.groupID = groupID := findGroup_groupID hg
  have heq := join_success_eq user s groupID code fault g inv r hg hi h
  rw [heq] at h ⊢
  simp only [Except.ok.injEq] at h
  have hcount : countParticipants
      { s with
          groups := s.groups.map (fun gr =>
            if gr.groupID == g.groupID then
              { gr with usersCount := countParticipants s groupID + 1 }
            else gr),
          groupInvitations := s.groupInvitations.filter
            (fun i => !(i.invitationID == inv.invitationID)),
          participants := s.participants ++
            [{ groupID := g.groupID, userID := user.userID,
               role := ParticipantRoleVIP,
               source := ParticipantSourceInvitation }] } groupID =
      countParticipants s groupID + 1 := by
    simp [countParticipants, List.filter_append, hgid]
  refine ⟨hcount, ⟨_, h.symm, rfl⟩, ?_⟩
  intro gr hmem hid
  simp only [List.mem_map] at hmem
  obtain ⟨a, ha, rfl⟩ := hmem
  rw [hcount]
  by_cases hab : a.groupID = g.groupID
  · simp [hab]
  · simp only [beq_iff_eq, hab, if_false] at hid ⊢
    exact absurd (hid.trans hgid.symm) hab

/-- Witness for C4: the concrete redemption on `exStore` (one prior
participant) commits `usersCount = 2` on the group row, returns a group with
`usersCount = 2`, and leaves exactly 2 participant rows. -/
theorem join_usersCount_consistent_witness :
    countParticipants exStore "g1" = 1 ∧
    countParticipants (JoinGroupByInvitation exJoiner exStore "g1" "1234"
        false).1 "g1" = 2 ∧
    (∃ g2, (some exGroupJoined : Option Group) = some g2 ∧
      g2.usersCount = countParticipants exStore "g1" + 1) := by
  refine ⟨by decide, ?_, ?_⟩
  · have := (join_usersCount_consistent exJoiner exStore "g1" "1234" false
      exGroup exInvitation (some exGroupJoined)
      (by decide) (by decide) (by decide)).1
    rw [this]
    decide
  · exact (join_usersCount_consistent exJoiner exStore "g1" "1234" false
      exGroup exInvitation (some exGroupJoined)
      (by decide) (by decide) (by decide)).2.1

/-- C9: every participant row created by a successful redemption has role
"VIP" and source "invitation", and the returned group is enriched with the
owner user loaded from the store. -/
theorem join_participant_vip_enriched (user : User) (s : Store)
    (groupID code : String) (fault : Bool) (g : Group) (inv : GroupInvitation)
    (r : Option Group)
    (hg : findGroup s groupID = some g)
    (hi : findGroupInvitationByGroupIDAndEmail s g.groupID user.email = some inv)
    (h : (JoinGroupByInvitation user s groupID code fault).2 = .ok r) :
    (∃ p : Participant,
      (JoinGroupByInvitation user s groupID code fault).1.participants =
        s.participants ++ [p] ∧
      p.role = ParticipantRoleVIP ∧ p.source = ParticipantSourceInvitation ∧
      p.userID = user.userID ∧ p.groupID = g.groupID) ∧
    ∃ g2, r = some g2 ∧ g2.user = findUserByID s g.userID ∧
      g2.role = ParticipantRoleVIP := by
  have heq := join_success_eq user s groupID code fault g inv r hg hi h
  rw [heq] at h ⊢
  simp only [Except.ok.injEq] at h
  exact ⟨⟨_, rfl, rfl, rfl, rfl, rfl⟩, ⟨_, h.symm, rfl, rfl⟩⟩

/-- Witness for C9: the concrete redemption on `exStore` appends exactly one
participant row with role "VIP" and source "invitation", and the returned
group carries the owner `exOwner` loaded from the store. -/
theorem join_participant_vip_enriched_witness :
    (∃ p : Participant,
      (JoinGroupByInvitation exJoiner exStore "g1" "1234" false).1.participants =
        exStore.participants ++ [p] ∧
      p.role = ParticipantRoleVIP ∧ p.source = ParticipantSourceInvitation ∧
      p.userID = exJoiner.userID ∧ p.groupID = exGroup.groupID) ∧
    ∃ g2, (some exGroupJoined : Option Group) = some g2 ∧
      g2.user = findUserByID exStore exGroup.userID ∧
      g2.role = ParticipantRoleVIP :=
  join_participant_vip_enriched exJoiner exStore "g1" "1234" false exGroup
    exInvitation (some exGroupJoined)
    (by decide) (by decide) (by decide)

/-- C1: the capacity check in the source is `count > 7`, so a group that
already holds exactly 7 invitation rows (the stated `MaxGroupInvitations`)
accepts one more: the owner's issuance on `storeAtCap` is not rejected with
`TooManyGroupInvitations`, and an 8th row is written. -/
theorem createGroupInvitation_eighth_row :
    countInvitations storeAtCap "g1" = MaxGroupInvitations ∧
    (CreateGroupInvitation ⟨"u1", "owner@x"⟩ storeAtCap "g1" "e8@x" "i8" 0
        (.ok [210, 4, 0, 0, 0, 0, 0, 0])).2 ≠
      .error .tooManyGroupInvitations ∧
    countInvitations
      (CreateGroupInvitation ⟨"u1", "owner@x"⟩ storeAtCap "g1" "e8@x" "i8" 0
        (.ok [210, 4, 0, 0, 0, 0, 0, 0])).1 "g1" = 8 := by
  refine ⟨by decide, by decide, by decide⟩

end Satellity
